import Mathlib

/-!
Verification of the Macktech ticket/chat portal backend.

This file gives a shallow embedding, in Lean, of the identity-resolution and
ticket subsystems of the repository (`backend/server.js`, `backend/db.js`,
`ad.js`), and proves properties of the embedded code.

Modelling conventions:
* JavaScript strings are Lean `String`s; where character-level reasoning is
  needed (header normalization) we work on `List Char` via `String.data`.
* `undefined`/`null` are `Option.none`; JS truthiness on strings is
  `jsTruthyOpt` (false exactly for `undefined`/`null`/`""`).
* The SQLite database is an explicit `DbState`; `datetime('now')` is the
  state's `now : Nat` field (second granularity); `AUTOINCREMENT` ids are the
  `next…Id` counters.
* Operations that can throw (JWT verification, LDAP calls, SQL `INSERT` that
  can violate a `UNIQUE` constraint) return `Except String _`; a JS
  `try { … } catch { … }` is a `match` on that `Except`.
* `db.js` defines its helpers as *arrow functions*.  Arrow functions do not
  bind `arguments`; inside them `arguments` resolves to the CommonJS module
  wrapper `function (exports, require, module, __filename, __dirname)`, so
  `arguments[0]` is the module's original `exports` object.  `db.js` assigns
  `module.exports = {…}` and never writes a property onto the original
  `exports` object, so `arguments[0]` is the (forever empty) `exportsObj`
  below, and every `arguments[0].foo` evaluates to `undefined`.
-/

/-- JS truthiness of a possibly-absent string: `undefined`, `null` and the
empty string are falsy; every other string is truthy. -/
def jsTruthyOpt : Option String → Bool
  | none => false
  | some s => !(s == "")

/-- JS `a || b` for a possibly-absent string `a` and a string default `b`. -/
def jsOrStr (v : Option String) (d : String) : String :=
  match v with
  | some s => if s == "" then d else s
  | none => d

/-- JS `a || b` where both sides are possibly-absent strings. -/
def jsOrOpt (v : Option String) (d : Option String) : Option String :=
  match v with
  | some s => if s == "" then d else some s
  | none => d

/-- JS `a || null` for a possibly-absent string `a`. -/
def jsOrNull (v : Option String) : Option String :=
  match v with
  | some s => if s == "" then none else some s
  | none => none

/-- The CommonJS `exports` object of `backend/db.js` as observed by the
`arguments[0]` expressions inside its arrow functions: `module.exports` is
reassigned to a fresh object and nothing is ever stored on the original
`exports`, so it stays empty. -/
def exportsObj : List (String × String) := []

/-- Property read `arguments[0].k` in `backend/db.js` (always `undefined`,
i.e. `none`, since `exportsObj` is empty). -/
def exportsLookup (k : String) : Option String :=
  (exportsObj.find? (fun kv => kv.1 == k)).map (fun kv => kv.2)

/-- JS `String.prototype.split` with a one-character separator, on the
character list of the string: `"a@b".split("@") = ["a","b"]`,
`"@b".split("@") = ["","b"]`, `"".split("@") = [""]`. -/
def jsSplit (c : Char) : List Char → List (List Char)
  | [] => [[]]
  | x :: xs =>
    if x = c then [] :: jsSplit c xs
    else
      match jsSplit c xs with
      | [] => [[x]]
      | y :: ys => (x :: y) :: ys

/-- Header-value normalization from `resolveUserFromRequest`
(`backend/server.js` lines 196–199) and the socket handshake middleware
(lines 112–114):

```js
let sam = String(v);
if (sam.includes('\\')) sam = sam.split('\\').pop();
if (sam.includes('@')) sam = sam.split('@')[0];
```
-/
def normalizeChars (s : List Char) : List Char :=
  let s1 := if '\\' ∈ s then (jsSplit '\\' s).getLastD [] else s
  if '@' ∈ s1 then (jsSplit '@' s1).headD [] else s1

/-- `normalizeChars` lifted to `String`: the candidate account name computed
from a forwarded-identity header value. -/
def normalizeHeader (s : String) : String :=
  ⟨normalizeChars s.data⟩

/-- Spec-side formulation: the suffix of `s` after the last occurrence of `c`
("strip any domain-prefix segment before a backslash"); `s` itself when `c`
does not occur. -/
def afterLast (c : Char) : List Char → List Char
  | [] => []
  | x :: xs => if c ∈ xs then afterLast c xs else if x = c then xs else x :: xs

/-- Spec-side formulation: the prefix of `s` before the first occurrence of
`c` ("strip any suffix after an `@`"). -/
def beforeFirst (c : Char) (s : List Char) : List Char :=
  s.takeWhile (fun x => x ≠ c)

/-! ## Data model (`backend/db.js` schema) -/

/-- A row of the `users` table (`db.js` lines 69–78).  `external` is the
INTEGER column (0/1). -/
structure User where
  id : Nat
  username : String
  password_hash : Option String
  display_name : Option String
  external : Nat
  created_at : Nat
deriving Repr, DecidableEq

/-- A row of the `tickets` table (`db.js` lines 50–67, after the column
migrations of lines 110–134). -/
structure Ticket where
  id : Nat
  title : String
  description : Option String
  requester : Option String
  computer : Option String
  location : Option String
  category : Option String
  hold_reason : Option String
  due_date : Option String
  assigned_to : Option String
  assigned_at : Option String
  status : String
  created_at : Nat
  updated_at : Option Nat
deriving Repr, DecidableEq

/-- A row of the `ticket_events` table (`db.js` lines 98–107). -/
structure TicketEvent where
  id : Nat
  ticket_id : Nat
  type : String
  actor : Option String
  message : Option String
  created_at : Nat
deriving Repr, DecidableEq

/-- The SQLite database plus the clock.  Rows are kept in insertion
(rowid) order; `next…Id` model the AUTOINCREMENT counters and `now` models
`datetime('now')` (second granularity, so consecutive inserts can share a
timestamp). -/
structure DbState where
  users : List User
  tickets : List Ticket
  events : List TicketEvent
  nextUserId : Nat
  nextTicketId : Nat
  nextEventId : Nat
  now : Nat
deriving Repr, DecidableEq

/-! ## `backend/db.js` operations -/

/-- Argument object of `db.createUser` as built by its callers
(`backend/server.js` passes `username`, `password_hash`, `display_name` and —
for SSO provisioning — `external: 1`). -/
structure CreateUserArg where
  username : String
  password_hash : Option String
  display_name : Option String
  external : Nat
deriving Repr, DecidableEq

/-- `db.createUser` (`db.js` lines 193–211).  The schema of this repository
always has the `external` column (it is in the CREATE TABLE and re-added by
the migration), so the PRAGMA-driven column detection always includes it;
but the value pushed for it is `arguments[0].external ? 1 : 0`, and inside
this arrow function `arguments[0]` is `exportsObj` (see the header comment),
so the inserted value is always `0`.  The `UNIQUE` constraint on
`users.username` makes the INSERT throw when the name already exists. -/
def createUser (a : CreateUserArg) (st : DbState) : Except String (Nat × DbState) :=
  if st.users.any (fun u => u.username == a.username) then
    Except.error "UNIQUE constraint failed: users.username"
  else
    let ext : Nat := if jsTruthyOpt (exportsLookup "external") then 1 else 0
    let row : User :=
      { id := st.nextUserId, username := a.username,
        password_hash := a.password_hash, display_name := a.display_name,
        external := ext, created_at := st.now }
    Except.ok (st.nextUserId,
      { st with users := st.users ++ [row], nextUserId := st.nextUserId + 1 })

/-- `db.getUserByUsername` (`db.js` lines 213–215): `SELECT *`. -/
def getUserByUsername (username : String) (st : DbState) : Option User :=
  st.users.find? (fun u => u.username == username)

/-- `db.getUserById` (`db.js` lines 217–219): the SELECT projects
`id, username, display_name, external, created_at` — it does not expose the
`password_hash` column, modelled by blanking that field. -/
def getUserById (id : Nat) (st : DbState) : Option User :=
  (st.users.find? (fun u => u.id == id)).map (fun u => { u with password_hash := none })

/-- Argument object of `db.createTicket` as built by its caller
(`backend/server.js` line 302 passes `title`, `description`, `requester`,
`computer`, `location`). -/
structure CreateTicketArg where
  title : String
  description : Option String
  requester : Option String
  computer : Option String
  location : Option String
  category : Option String
  hold_reason : Option String
  due_date : Option String
  assigned_to : Option String
  assigned_at : Option String
deriving Repr, DecidableEq

/-- `db.createTicket` (`db.js` lines 140–153).  Only `title`, `description`
and `requester` come from the destructured parameter; `computer`, `location`,
`category`, `hold_reason`, `due_date`, `assigned_to`, `assigned_at` are read
as `arguments[0].x || null`, and `arguments[0]` inside this arrow function is
the empty `exportsObj`, so those seven columns are always NULL.  `status` is
the SQL literal `'open'` and `created_at` is `datetime('now')`. -/
def createTicket (a : CreateTicketArg) (st : DbState) : Nat × DbState :=
  let row : Ticket :=
    { id := st.nextTicketId, title := a.title, description := a.description,
      requester := a.requester,
      computer := jsOrNull (exportsLookup "computer"),
      location := jsOrNull (exportsLookup "location"),
      category := jsOrNull (exportsLookup "category"),
      hold_reason := jsOrNull (exportsLookup "hold_reason"),
      due_date := jsOrNull (exportsLookup "due_date"),
      assigned_to := jsOrNull (exportsLookup "assigned_to"),
      assigned_at := jsOrNull (exportsLookup "assigned_at"),
      status := "open", created_at := st.now, updated_at := none }
  (st.nextTicketId,
    { st with tickets := st.tickets ++ [row], nextTicketId := st.nextTicketId + 1 })

/-- `db.getTicket` (`db.js` lines 161–163). -/
def getTicket (id : Nat) (st : DbState) : Option Ticket :=
  st.tickets.find? (fun t => t.id == id)

/-- `fields[k]` for a JSON payload object (JSON object keys are unique). -/
def lookupField (fields : List (String × String)) (k : String) : Option String :=
  (fields.find? (fun kv => kv.1 == k)).map (fun kv => kv.2)

/-- The field whitelist iterated by `db.updateTicket` (`db.js` line 170). -/
def ticketWhitelist : List String :=
  ["title", "description", "requester", "status", "category", "hold_reason",
   "due_date", "assigned_to", "assigned_at"]

/-- One SQL `SET k = ?` assignment of `db.updateTicket`. -/
def setField (t : Ticket) (kv : String × String) : Ticket :=
  if kv.1 == "title" then { t with title := kv.2 }
  else if kv.1 == "description" then { t with description := some kv.2 }
  else if kv.1 == "requester" then { t with requester := some kv.2 }
  else if kv.1 == "status" then { t with status := kv.2 }
  else if kv.1 == "category" then { t with category := some kv.2 }
  else if kv.1 == "hold_reason" then { t with hold_reason := some kv.2 }
  else if kv.1 == "due_date" then { t with due_date := some kv.2 }
  else if kv.1 == "assigned_to" then { t with assigned_to := some kv.2 }
  else if kv.1 == "assigned_at" then { t with assigned_at := some kv.2 }
  else t

/-- `db.updateTicket` (`db.js` lines 167–179): collect the submitted
whitelisted fields into SET clauses; if none, return without touching the
database; otherwise run a single UPDATE that also sets
`updated_at = datetime('now')` on the matching row. -/
def updateTicket (id : Nat) (fields : List (String × String)) (st : DbState) : DbState :=
  let up : List (String × String) :=
    ticketWhitelist.filterMap (fun k => (lookupField fields k).map (fun v => (k, v)))
  if up.isEmpty then st
  else
    { st with tickets := st.tickets.map (fun t =>
        if t.id == id then { up.foldl setField t with updated_at := some st.now } else t) }

/-- Argument object of `db.createTicketEvent`. -/
structure CreateEventArg where
  ticket_id : Nat
  type : String
  actor : Option String
  message : Option String
deriving Repr, DecidableEq

/-- `db.createTicketEvent` (`db.js` lines 181–187). -/
def createTicketEvent (a : CreateEventArg) (st : DbState) : Nat × DbState :=
  let row : TicketEvent :=
    { id := st.nextEventId, ticket_id := a.ticket_id, type := a.type,
      actor := a.actor, message := a.message, created_at := st.now }
  (st.nextEventId,
    { st with events := st.events ++ [row], nextEventId := st.nextEventId + 1 })

/-- Insertion step of the stable descending sort on `created_at`: the new
element is placed after every already-placed element whose `created_at` is
`≥` its own. -/
def insertDesc (e : TicketEvent) : List TicketEvent → List TicketEvent
  | [] => [e]
  | x :: xs => if e.created_at ≥ x.created_at then e :: x :: xs else x :: insertDesc e xs

/-- Stable sort of events by `created_at`, newest first; elements with equal
`created_at` keep their relative order. -/
def sortDesc (l : List TicketEvent) : List TicketEvent :=
  l.foldr insertDesc []

/-- `db.getTicketEvents` (`db.js` lines 189–191):
`SELECT * FROM ticket_events WHERE ticket_id = ? ORDER BY created_at DESC`.
The query has no secondary sort key.  SQLite executes it as a full table scan
in rowid (insertion) order followed by a sort on `created_at` alone; rows
with equal `created_at` surface in scan order, modelled by the stable
`sortDesc`. -/
def getTicketEvents (ticket_id : Nat) (st : DbState) : List TicketEvent :=
  sortDesc (st.events.filter (fun e => e.ticket_id == ticket_id))

/-! ## `ad.js` (Directory Client) -/

/-- The four connection environment variables of `ad.js`
(`AD_URL`, `AD_BIND_DN`, `AD_BIND_PW`, `AD_BASE_DN`). -/
structure AdEnv where
  url : Option String
  bindDn : Option String
  bindPw : Option String
  baseDn : Option String
deriving Repr, DecidableEq

/-- `configured()` (`ad.js`): `!!(AD_URL && AD_BIND_DN && AD_BIND_PW && AD_BASE_DN)`. -/
def configured (env : AdEnv) : Bool :=
  jsTruthyOpt env.url && jsTruthyOpt env.bindDn && jsTruthyOpt env.bindPw
    && jsTruthyOpt env.baseDn

/-- An LDAP search result entry with the four requested attributes, each of
which may be absent on a given directory object. -/
structure LdapEntry where
  sAMAccountName : Option String
  displayName : Option String
  mail : Option String
  userPrincipalName : Option String
deriving Repr, DecidableEq

/-- The external LDAP server as seen through `ldapjs`: `bind` may fail, and
`search` takes the filter string and the optional `sizeLimit` and may fail. -/
structure LdapNet where
  bind : Except String Unit
  search : String → Option Nat → Except String (List LdapEntry)

/-- The user-info object `ad.js` builds from an entry. -/
structure AdUser where
  username : Option String
  displayName : Option String
  email : Option String
deriving Repr, DecidableEq

/-- Field mapping shared by `lookupUserBySamAccountName` and `searchUsers`:
`displayName: e.displayName || e.userPrincipalName || e.sAMAccountName`,
`email: e.mail || e.userPrincipalName || null`. -/
def entryToUser (e : LdapEntry) : AdUser :=
  { username := e.sAMAccountName,
    displayName := jsOrOpt e.displayName (jsOrOpt e.userPrincipalName e.sAMAccountName),
    email := jsOrOpt e.mail (jsOrOpt e.userPrincipalName none) }

/-- The LDAP filter built by `lookupUserBySamAccountName`. -/
def lookupFilter (sam : String) : String :=
  "(&(objectClass=user)(sAMAccountName=" ++ sam ++ "))"

/-- The LDAP filter built by `searchUsers`:
`const q = query ? "*" + query + "*" : "*"`. -/
def searchFilter (query : String) : String :=
  let q := if query == "" then "*" else "*" ++ query ++ "*"
  "(&(objectClass=user)(|(displayName=" ++ q ++ ")(sAMAccountName=" ++ q ++ ")))"

/-- `ad.lookupUserBySamAccountName` (`ad.js`).  The second component counts
the network operations issued against the LDAP client (bind, search, unbind),
including the unbind attempted by the catch handler; when the module is not
configured the function returns before even creating a client.  Any bind or
search failure is absorbed and yields `null`. -/
def lookupUserBySamAccountName (env : AdEnv) (net : LdapNet) (sam : String) :
    Option AdUser × Nat :=
  if !(configured env) then (none, 0)
  else
    match net.bind with
    | Except.error _ => (none, 2)
    | Except.ok _ =>
      match net.search (lookupFilter sam) none with
      | Except.error _ => (none, 3)
      | Except.ok entries =>
        match entries with
        | [] => (none, 3)
        | e :: _ => (some (entryToUser e), 3)

/-- `ad.searchUsers` (`ad.js`).  Same structure as the lookup: unconfigured →
`[]` with no network activity; any failure → `[]`. -/
def searchUsers (env : AdEnv) (net : LdapNet) (query : String) (limit : Nat) :
    List AdUser × Nat :=
  if !(configured env) then ([], 0)
  else
    match net.bind with
    | Except.error _ => ([], 2)
    | Except.ok _ =>
      match net.search (searchFilter query) (some limit) with
      | Except.error _ => ([], 3)
      | Except.ok entries => (entries.map entryToUser, 3)

/-! ## `backend/server.js`: identity resolution -/

/-- The parts of an Express request consulted by identity resolution and the
ticket endpoints.  Express exposes header names lowercased. -/
structure Request where
  authorization : Option String
  headers : List (String × String)
deriving Repr, DecidableEq

/-- `req.headers[h]`. -/
def getHeader (req : Request) (h : String) : Option String :=
  (req.headers.find? (fun kv => kv.1 == h)).map (fun kv => kv.2)

/-- The fixed ordered list of forwarded-identity header names
(`server.js` line 192). -/
def headerNames : List String :=
  ["x-remote-user", "remote-user", "x-forwarded-user", "remote_user"]

/-- The loop header scan: the first header in `headerNames` whose value is
truthy (`if (!v) continue;`). -/
def firstTruthyHeader (req : Request) : Option String :=
  headerNames.findSome? (fun h =>
    match getHeader req h with
    | some v => if v == "" then none else some v
    | none => none)

/-- The provisioning tail of the SSO branch (`server.js` lines 216–222),
entered after `db.getUserByUsername(sam)` observed no row: insert the user
(`password_hash: null`, `external: 1`) and re-read it by id.  The
surrounding `catch` turns any insert failure — in particular a UNIQUE
constraint violation when another request provisioned the same name in the
meantime — into `return null`. -/
def provisionCont (sam : String) (display_name : String) (st : DbState) :
    Option User × DbState :=
  match createUser
      { username := sam, password_hash := none,
        display_name := some display_name, external := 1 } st with
  | Except.ok (id, st') => (getUserById id st', st')
  | Except.error _ => (none, st)

/-- Step 2 of `resolveUserFromRequest` (`server.js` lines 192–224): header
scan, normalization, optional directory lookup (its own try/catch keeps
`adInfo` null on failure), then resolve-or-provision.  `adLookup` is the
`ad.lookupUserBySamAccountName` call as seen by the server (it may reject,
and may resolve with `null`). -/
def resolveSsoHeaders (adCfg : Bool) (adLookup : String → Except String (Option AdUser))
    (req : Request) (st : DbState) : Option User × DbState :=
  match firstTruthyHeader req with
  | none => (none, st)
  | some v =>
    let sam := normalizeHeader v
    let adInfo : Option AdUser :=
      if adCfg then
        match adLookup sam with
        | Except.ok i => i
        | Except.error _ => none
      else none
    match getUserByUsername sam st with
    | some u => (some u, st)
    | none =>
      let display_name := jsOrStr (adInfo.bind (fun i => i.displayName)) sam
      provisionCont sam display_name st

/-- JS `String.prototype.startsWith`, character-wise. -/
def jsStartsWith (s p : String) : Bool :=
  s.data.take p.data.length == p.data

/-- JS `String.prototype.slice(n)` (drop the first `n` characters). -/
def jsSlice (s : String) (n : Nat) : String :=
  ⟨s.data.drop n⟩

/-- Step 1 of `resolveUserFromRequest` (`server.js` lines 178–185), the body
of the `try` block: extract the bearer token (`auth.startsWith('Bearer ')`,
`auth.slice(7)`), verify it (`jwt.verify` throws on malformed/expired tokens
— an `Except.error` here), and look the subject up by id.  A valid token
whose subject is unknown yields `none` and falls through, like the source's
`if (user) return user;`. -/
def tokenStep (verify : String → Except String Nat) (req : Request) (st : DbState) :
    Except String (Option User) :=
  match req.authorization with
  | none => Except.ok none
  | some auth =>
    if jsStartsWith auth "Bearer " then
      match verify (jsSlice auth 7) with
      | Except.ok uid => Except.ok (getUserById uid st)
      | Except.error e => Except.error e
    else Except.ok none

/-- `resolveUserFromRequest` (`server.js` lines 176–227).  The result type is
`Except` to make "throws to the caller" representable; the `catch` of the
token `try` block (line 186) is the `Except.error` arm, which falls through
to header-based SSO exactly like the `Except.ok none` (no token / unknown
subject) case. -/
def resolveUserFromRequest (verify : String → Except String Nat) (adCfg : Bool)
    (adLookup : String → Except String (Option AdUser)) (req : Request)
    (st : DbState) : Except String (Option User × DbState) :=
  match tokenStep verify req st with
  | Except.ok (some u) => Except.ok (some u, st)
  | Except.ok none => Except.ok (resolveSsoHeaders adCfg adLookup req st)
  | Except.error _ => Except.ok (resolveSsoHeaders adCfg adLookup req st)

/-! ## `backend/server.js`: ticket endpoints -/

/-- JSON body of `POST /api/tickets` as destructured by the handler. -/
structure TicketBody where
  title : Option String
  description : Option String
  requester : Option String
deriving Repr, DecidableEq

/-- A JS `hdr[a] || hdr[b] || … || null` chain over request headers. -/
def headerChain (req : Request) (names : List String) : Option String :=
  names.findSome? (fun h =>
    match getHeader req h with
    | some v => if v == "" then none else some v
    | none => none)

/-- The `POST /api/tickets` handler (`server.js` lines 288–313): reject a
falsy title with 400; optionally resolve an identity (errors ignored); pick
the effective requester `(resolved && resolved.username) || requester ||
'Anonymous'`; capture computer/location header chains; insert the ticket;
re-read it for the response; append the "created" event.  Result:
`((status, response ticket), final database)`. -/
def postTickets (verify : String → Except String Nat) (adCfg : Bool)
    (adLookup : String → Except String (Option AdUser)) (req : Request)
    (body : TicketBody) (st : DbState) : (Nat × Option Ticket) × DbState :=
  match body.title with
  | none => ((400, none), st)
  | some t =>
    if t == "" then ((400, none), st)
    else
      let rs : Option User × DbState :=
        match resolveUserFromRequest verify adCfg adLookup req st with
        | Except.ok r => r
        | Except.error _ => (none, st)
      let who : String :=
        jsOrStr (rs.1.map (fun u => u.username)) (jsOrStr body.requester "Anonymous")
      let computer := headerChain req
        ["x-computer-name", "x-client-host", "x-forwarded-for-host", "x-device"]
      let location := headerChain req ["x-location", "x-site", "x-building"]
      let ct := createTicket
        { title := t, description := some (jsOrStr body.description ""),
          requester := some who, computer := computer, location := location,
          category := none, hold_reason := none, due_date := none,
          assigned_to := none, assigned_at := none } rs.2
      let ticket := getTicket ct.1 ct.2
      let ev := createTicketEvent
        { ticket_id := ct.1, type := "created", actor := some who,
          message := some "Ticket created" } ct.2
      ((201, ticket), ev.2)

/-- The `GET /api/ad/users` handler (`server.js` lines 400–411): when the
directory module is not configured it replies `res.status(404).json([])`;
otherwise it trims `String(req.query.q || '')` and returns the search result
with status 200. -/
def adUsersHandler (env : AdEnv) (net : LdapNet) (q : Option String) :
    Nat × List AdUser :=
  if !(configured env) then (404, [])
  else (200, (searchUsers env net ((jsOrStr q "").trim) 50).1)

/-! ## Normalization lemmas -/

section SplitLemmas

theorem jsSplit_ne_nil (c : Char) (s : List Char) : jsSplit c s ≠ [] := by
  induction s with
  | nil => simp [jsSplit]
  | cons x xs ih =>
    by_cases h : x = c
    · simp [jsSplit, h]
    · simp only [jsSplit, if_neg h]
      cases hs : jsSplit c xs with
      | nil => simp
      | cons y ys => simp

theorem jsSplit_of_not_mem (c : Char) (s : List Char) (h : c ∉ s) :
    jsSplit c s = [s] := by
  induction s with
  | nil => simp [jsSplit]
  | cons x xs ih =>
    have hx : x ≠ c := fun hxc => h (by simp [hxc])
    have hxs : c ∉ xs := fun hm => h (List.mem_cons_of_mem _ hm)
    simp [jsSplit, hx, ih hxs]

theorem jsSplit_two_le_of_mem (c : Char) (s : List Char) (h : c ∈ s) :
    2 ≤ (jsSplit c s).length := by
  induction s with
  | nil => cases h
  | cons x xs ih =>
    by_cases hx : x = c
    · have := jsSplit_ne_nil c xs
      simp only [jsSplit, if_pos hx, List.length_cons]
      have : 1 ≤ (jsSplit c xs).length := by
        cases hq : jsSplit c xs with
        | nil => exact absurd hq (jsSplit_ne_nil c xs)
        | cons a l => simp
      omega
    · have hxs : c ∈ xs := by
        rcases List.mem_cons.mp h with h1 | h2
        · exact absurd h1.symm hx
        · exact h2
      simp only [jsSplit, if_neg hx]
      cases hq : jsSplit c xs with
      | nil => exact absurd hq (jsSplit_ne_nil c xs)
      | cons y ys =>
        have := ih hxs
        rw [hq] at this
        simpa using this

theorem afterLast_of_not_mem (c : Char) (s : List Char) (h : c ∉ s) :
    afterLast c s = s := by
  induction s with
  | nil => rfl
  | cons x xs ih =>
    have hx : x ≠ c := fun hxc => h (by simp [hxc])
    have hxs : c ∉ xs := fun hm => h (List.mem_cons_of_mem _ hm)
    simp [afterLast, hxs, hx, fun hcx : c = x => hx hcx.symm]

theorem jsSplit_head (c : Char) (s : List Char) :
    (jsSplit c s).headD [] = beforeFirst c s := by
  induction s with
  | nil => simp [jsSplit, beforeFirst]
  | cons x xs ih =>
    by_cases hx : x = c
    · simp [jsSplit, hx, beforeFirst]
    · simp only [jsSplit, if_neg hx]
      cases hq : jsSplit c xs with
      | nil => exact absurd hq (jsSplit_ne_nil c xs)
      | cons y ys =>
        rw [hq] at ih
        simp only [List.headD_cons] at ih
        have hb : beforeFirst c (x :: xs) = x :: beforeFirst c xs := by
          simp [beforeFirst, List.takeWhile_cons, hx]
        rw [List.headD_cons, hb, ← ih]

theorem jsSplit_getLast (c : Char) (s : List Char) :
    (jsSplit c s).getLastD [] = afterLast c s := by
  induction s with
  | nil => simp [jsSplit, afterLast]
  | cons x xs ih =>
    by_cases hx : x = c
    · simp only [jsSplit, if_pos hx]
      by_cases hm : c ∈ xs
      · have h2 := jsSplit_ne_nil c xs
        cases hq : jsSplit c xs with
        | nil => exact absurd hq h2
        | cons y ys =>
          rw [hq] at ih
          simp only [List.getLastD_cons] at ih ⊢
          rw [ih]
          simp [afterLast, hx, hm]
      · rw [jsSplit_of_not_mem c xs hm]
        simp [afterLast, hx, hm, afterLast_of_not_mem c xs hm]
    · simp only [jsSplit, if_neg hx]
      by_cases hm : c ∈ xs
      · have h2 := jsSplit_two_le_of_mem c xs hm
        cases hq : jsSplit c xs with
        | nil => exact absurd hq (jsSplit_ne_nil c xs)
        | cons y ys =>
          cases ys with
          | nil => rw [hq] at h2; simp at h2
          | cons z zs =>
            rw [hq] at ih
            simp only [List.getLastD_cons] at ih ⊢
            rw [ih]
            simp [afterLast, hm]
      · rw [jsSplit_of_not_mem c xs hm]
        simp [afterLast, hm, hx, fun hcx : c = x => hx hcx.symm]

theorem beforeFirst_of_not_mem (c : Char) (s : List Char) (h : c ∉ s) :
    beforeFirst c s = s := by
  induction s with
  | nil => rfl
  | cons x xs ih =>
    have hx : x ≠ c := fun hxc => h (by simp [hxc])
    have hxs : c ∉ xs := fun hm => h (List.mem_cons_of_mem _ hm)
    simp [beforeFirst, List.takeWhile_cons, hx] at ih ⊢
    exact ih hxs

/-- The two `includes` guards in the source are redundant: on every input the
normalization computes "segment after the last backslash, then prefix before
the first `@`". -/
theorem normalizeChars_eq (s : List Char) :
    normalizeChars s = beforeFirst '@' (afterLast '\\' s) := by
  unfold normalizeChars
  by_cases h1 : '\\' ∈ s
  · simp only [if_pos h1, jsSplit_getLast]
    by_cases h2 : '@' ∈ afterLast '\\' s
    · rw [if_pos h2, jsSplit_head]
    · rw [if_neg h2, beforeFirst_of_not_mem _ _ h2]
  · simp only [if_neg h1, afterLast_of_not_mem _ _ h1]
    by_cases h2 : '@' ∈ s
    · rw [if_pos h2, jsSplit_head]
    · rw [if_neg h2, beforeFirst_of_not_mem _ _ h2]

end SplitLemmas

/-! ## Helper lemmas -/

theorem any_eq_false_of_find?_eq_none {α : Type} {p : α → Bool} {l : List α}
    (h : l.find? p = none) : l.any p = false := by
  rw [List.any_eq_false]
  intro x hx
  exact fun hp => (List.find?_eq_none.mp h x hx) hp

theorem filter_eq_nil_of_find?_eq_none {α : Type} {p : α → Bool} {l : List α}
    (h : l.find? p = none) : l.filter p = [] := by
  rw [List.filter_eq_nil_iff]
  intro x hx
  exact fun hp => (List.find?_eq_none.mp h x hx) hp

theorem find?_append_of_none {α : Type} {p : α → Bool} {l₁ l₂ : List α}
    (h : ∀ x ∈ l₁, p x = false) : (l₁ ++ l₂).find? p = l₂.find? p := by
  induction l₁ with
  | nil => rfl
  | cons x xs ih =>
    have hx : p x = false := h x (List.mem_cons_self x xs)
    simp only [List.cons_append, List.find?_cons, hx]
    exact ih (fun y hy => h y (List.mem_cons_of_mem _ hy))

theorem find?_filter_of_imp {α : Type} {p q : α → Bool} (l : List α)
    (h : ∀ x, p x = true → q x = true) : (l.filter q).find? p = l.find? p := by
  induction l with
  | nil => rfl
  | cons x xs ih =>
    by_cases hq : q x = true
    · simp only [List.filter_cons, hq, if_pos trivial, List.find?_cons]
      cases hp : p x with
      | true => rfl
      | false => exact ih
    · have hp : p x = false := by
        cases hpx : p x with
        | true => exact absurd (h x hpx) hq
        | false => rfl
      simp only [List.filter_cons, hq]
      simp only [List.find?_cons, hp, if_neg]
      exact ih

theorem insertDesc_perm (e : TicketEvent) (l : List TicketEvent) :
    List.Perm (insertDesc e l) (e :: l) := by
  induction l with
  | nil => exact List.Perm.refl _
  | cons x xs ih =>
    by_cases h : e.created_at ≥ x.created_at
    · simp only [insertDesc, if_pos h]
      exact List.Perm.refl _
    · simp only [insertDesc, if_neg h]
      exact (List.Perm.cons x ih).trans (List.Perm.swap e x xs)

theorem sortDesc_perm (l : List TicketEvent) : List.Perm (sortDesc l) l := by
  induction l with
  | nil => exact List.Perm.refl _
  | cons x xs ih =>
    exact (insertDesc_perm x (sortDesc xs)).trans (List.Perm.cons x ih)

theorem insertDesc_pairwise (e : TicketEvent) (l : List TicketEvent)
    (h : l.Pairwise (fun a b => b.created_at ≤ a.created_at)) :
    (insertDesc e l).Pairwise (fun a b => b.created_at ≤ a.created_at) := by
  induction l with
  | nil => simp [insertDesc]
  | cons x xs ih =>
    rcases List.pairwise_cons.mp h with ⟨hx, hxs⟩
    by_cases hge : e.created_at ≥ x.created_at
    · simp only [insertDesc, if_pos hge]
      refine List.pairwise_cons.mpr ⟨?_, h⟩
      intro b hb
      rcases List.mem_cons.mp hb with rfl | hbx
      · exact hge
      · exact le_trans (hx b hbx) hge
    · simp only [insertDesc, if_neg hge]
      refine List.pairwise_cons.mpr ⟨?_, ih hxs⟩
      intro b hb
      have hb' : b ∈ e :: xs := (insertDesc_perm e xs).mem_iff.mp hb
      rcases List.mem_cons.mp hb' with rfl | hbx
      · exact le_of_lt (lt_of_not_ge hge)
      · exact hx b hbx

theorem sortDesc_pairwise (l : List TicketEvent) :
    (sortDesc l).Pairwise (fun a b => b.created_at ≤ a.created_at) := by
  induction l with
  | nil => simp [sortDesc]
  | cons x xs ih => exact insertDesc_pairwise x (sortDesc xs) ih

theorem insertDesc_filter_created_at (e : TicketEvent) (l : List TicketEvent) (t : Nat) :
    (insertDesc e l).filter (fun x => x.created_at == t)
      = (e :: l).filter (fun x => x.created_at == t) := by
  induction l with
  | nil => rfl
  | cons x xs ih =>
    by_cases hge : e.created_at ≥ x.created_at
    · simp only [insertDesc, if_pos hge]
    · simp only [insertDesc, if_neg hge]
      have hxt : e.created_at < x.created_at := lt_of_not_ge hge
      by_cases hx : x.created_at = t
      · have het : (e.created_at == t) = false := by
          simp only [beq_eq_false_iff_ne, ne_eq]
          omega
        have hxb : (x.created_at == t) = true := by simpa using hx
        calc (x :: insertDesc e xs).filter (fun y => y.created_at == t)
            = x :: (insertDesc e xs).filter (fun y => y.created_at == t) := by
              simp [List.filter_cons, hxb]
          _ = x :: (e :: xs).filter (fun y => y.created_at == t) := by rw [ih]
          _ = x :: xs.filter (fun y => y.created_at == t) := by
              simp [List.filter_cons, het]
          _ = (e :: x :: xs).filter (fun y => y.created_at == t) := by
              simp [List.filter_cons, het, hxb]
      · have hxb : (x.created_at == t) = false := by simpa using hx
        calc (x :: insertDesc e xs).filter (fun y => y.created_at == t)
            = (insertDesc e xs).filter (fun y => y.created_at == t) := by
              simp [List.filter_cons, hxb]
          _ = (e :: xs).filter (fun y => y.created_at == t) := ih
          _ = (e :: x :: xs).filter (fun y => y.created_at == t) := by
              by_cases he : e.created_at = t
              · have heb : (e.created_at == t) = true := by simpa using he
                simp [List.filter_cons, heb, hxb]
              · have heb : (e.created_at == t) = false := by simpa using he
                simp [List.filter_cons, heb, hxb]

theorem sortDesc_filter_created_at (l : List TicketEvent) (t : Nat) :
    (sortDesc l).filter (fun x => x.created_at == t)
      = l.filter (fun x => x.created_at == t) := by
  induction l with
  | nil => rfl
  | cons x xs ih =>
    have : sortDesc (x :: xs) = insertDesc x (sortDesc xs) := rfl
    rw [this, insertDesc_filter_created_at]
    simp only [List.filter_cons]
    rw [ih]

theorem setField_id (t : Ticket) (kv : String × String) : (setField t kv).id = t.id := by
  unfold setField
  repeat' split
  all_goals rfl

theorem setField_computer (t : Ticket) (kv : String × String) :
    (setField t kv).computer = t.computer := by
  unfold setField
  repeat' split
  all_goals rfl

theorem setField_location (t : Ticket) (kv : String × String) :
    (setField t kv).location = t.location := by
  unfold setField
  repeat' split
  all_goals rfl

theorem setField_created_at (t : Ticket) (kv : String × String) :
    (setField t kv).created_at = t.created_at := by
  unfold setField
  repeat' split
  all_goals rfl

theorem foldl_setField_id (up : List (String × String)) (t : Ticket) :
    (up.foldl setField t).id = t.id := by
  induction up generalizing t with
  | nil => rfl
  | cons kv rest ih => rw [List.foldl_cons, ih, setField_id]

theorem foldl_setField_computer (up : List (String × String)) (t : Ticket) :
    (up.foldl setField t).computer = t.computer := by
  induction up generalizing t with
  | nil => rfl
  | cons kv rest ih => rw [List.foldl_cons, ih, setField_computer]

theorem foldl_setField_location (up : List (String × String)) (t : Ticket) :
    (up.foldl setField t).location = t.location := by
  induction up generalizing t with
  | nil => rfl
  | cons kv rest ih => rw [List.foldl_cons, ih, setField_location]

theorem foldl_setField_created_at (up : List (String × String)) (t : Ticket) :
    (up.foldl setField t).created_at = t.created_at := by
  induction up generalizing t with
  | nil => rfl
  | cons kv rest ih => rw [List.foldl_cons, ih, setField_created_at]

/-! ## Claims -/

/-- C4: normalization of a forwarded-identity header value strips the
domain-prefix segment before a (the last) backslash and then the suffix
after the (first) `@`; in particular both `"CORP\jdoe"` and
`"jdoe@corp.example"` normalize to candidate account name `"jdoe"`. -/
theorem claim_C4_header_normalization :
    (∀ s : String, normalizeHeader s = ⟨beforeFirst '@' (afterLast '\\' s.data)⟩)
    ∧ normalizeHeader "CORP\\jdoe" = "jdoe"
    ∧ normalizeHeader "jdoe@corp.example" = "jdoe" := by
  refine ⟨fun s => ?_, by decide, by decide⟩
  unfold normalizeHeader
  rw [normalizeChars_eq]

/-- C8: when the directory client is not fully configured,
`lookupUserBySamAccountName` returns absent and `searchUsers` returns the
empty list, in both cases with zero network operations issued. -/
theorem claim_C8_unconfigured_no_network (env : AdEnv) (net : LdapNet)
    (sam query : String) (limit : Nat) (h : configured env = false) :
    lookupUserBySamAccountName env net sam = (none, 0)
    ∧ searchUsers env net query limit = ([], 0) := by
  constructor
  · simp [lookupUserBySamAccountName, h]
  · simp [searchUsers, h]

/-- Witness for C8 at a concrete unconfigured environment. -/
theorem claim_C8_witness :
    lookupUserBySamAccountName ⟨none, none, none, none⟩
        ⟨Except.ok (), fun _ _ => Except.ok []⟩ "jdoe" = (none, 0)
    ∧ searchUsers ⟨none, none, none, none⟩
        ⟨Except.ok (), fun _ _ => Except.ok []⟩ "jd" 50 = ([], 0) :=
  claim_C8_unconfigured_no_network ⟨none, none, none, none⟩
    ⟨Except.ok (), fun _ _ => Except.ok []⟩ "jdoe" "jd" 50 rfl

/-- C9 counterexample: with the directory unconfigured, the
`GET /api/ad/users` handler replies with status 404 (and an empty list), not
with status 200 as the claim states. -/
theorem claim_C9_counterexample :
    (adUsersHandler ⟨none, none, none, none⟩
        ⟨Except.ok (), fun _ _ => Except.ok []⟩ none).1 = 404
    ∧ (adUsersHandler ⟨none, none, none, none⟩
        ⟨Except.ok (), fun _ _ => Except.ok []⟩ none).1 ≠ 200 := by
  constructor
  · rfl
  · decide

/-- C9 (amended): a GET on the directory user-search endpoint with the
directory unconfigured responds with HTTP status 404 and an empty list body
(the handler does `res.status(404).json([])`). -/
theorem claim_C9_unconfigured_search_endpoint (env : AdEnv) (net : LdapNet)
    (q : Option String) (h : configured env = false) :
    adUsersHandler env net q = (404, []) := by
  simp [adUsersHandler, h]

/-- Witness for C9 (amended) at a concrete unconfigured environment. -/
theorem claim_C9_witness :
    adUsersHandler ⟨some "ldap://dc", none, none, none⟩
        ⟨Except.ok (), fun _ _ => Except.ok []⟩ (some "jd") = (404, []) :=
  claim_C9_unconfigured_search_endpoint ⟨some "ldap://dc", none, none, none⟩
    ⟨Except.ok (), fun _ _ => Except.ok []⟩ (some "jd") rfl

/-- C7 counterexample: two events on the same ticket inserted in the same
`datetime('now')` second (ids 1 and 2, equal `created_at`).  The event log
read returns the earlier-inserted event (smaller id) first, not the more
recently inserted one as the claim states. -/
theorem claim_C7_counterexample :
    getTicketEvents 1
        ⟨[], [], [⟨1, 1, "created", some "admin", some "Ticket created", 5⟩,
                  ⟨2, 1, "note", some "admin", some "second note", 5⟩], 1, 2, 3, 9⟩
      = [⟨1, 1, "created", some "admin", some "Ticket created", 5⟩,
         ⟨2, 1, "note", some "admin", some "second note", 5⟩]
    ∧ (getTicketEvents 1
        ⟨[], [], [⟨1, 1, "created", some "admin", some "Ticket created", 5⟩,
                  ⟨2, 1, "note", some "admin", some "second note", 5⟩], 1, 2, 3, 9⟩).head?
      ≠ some ⟨2, 1, "note", some "admin", some "second note", 5⟩ := by
  refine ⟨rfl, by decide⟩

/-- C7 (amended): the event log read returns the ticket's events newest-first
by `created_at`, and — because the query has no secondary sort key and SQLite
scans in rowid order and sorts stably on `created_at` alone — events with
equal `created_at` appear in insertion order (the earlier-inserted, smaller
id, first), as witnessed by the filter equality; the result is a permutation
of the ticket's events. -/
theorem claim_C7_event_order (tid : Nat) (st : DbState) :
    (getTicketEvents tid st).Pairwise (fun a b => b.created_at ≤ a.created_at)
    ∧ List.Perm (getTicketEvents tid st) (st.events.filter (fun e => e.ticket_id == tid))
    ∧ ∀ t : Nat, (getTicketEvents tid st).filter (fun e => e.created_at == t)
        = (st.events.filter (fun e => e.ticket_id == tid)).filter
            (fun e => e.created_at == t) := by
  refine ⟨sortDesc_pairwise _, sortDesc_perm _, fun t => sortDesc_filter_created_at _ t⟩

/-- C2 counterexample: the interleaving in which both resolutions read
`getUserByUsername` as absent before either inserts, then run the
provisioning continuation one after the other, starting from an empty
database.  The second (losing) resolution yields no identity (`none`) — it
does not re-read and resolve to the existing row — while exactly one row was
created and the winner did resolve. -/
theorem claim_C2_counterexample :
    (provisionCont "jdoe" "jdoe"
        (provisionCont "jdoe" "jdoe" ⟨[], [], [], 1, 1, 1, 9⟩).2).1 = none
    ∧ ((provisionCont "jdoe" "jdoe"
        (provisionCont "jdoe" "jdoe" ⟨[], [], [], 1, 1, 1, 9⟩).2).2.users.filter
          (fun u => u.username == "jdoe")).length = 1
    ∧ (provisionCont "jdoe" "jdoe" ⟨[], [], [], 1, 1, 1, 9⟩).1 ≠ none := by
  refine ⟨rfl, rfl, by decide⟩

/-- C2 (amended): when two resolutions race to provision the same
not-yet-existing account name (both having read the row as absent), exactly
one User row is created — the `UNIQUE` constraint on the account name is the
guard — and the winner resolves to it; the losing insert hits the constraint
and its `catch` yields no identity (`null`) for that request, rather than
re-reading the now-existing row. -/
theorem claim_C2_provisioning_race (sam dn1 dn2 : String) (st : DbState)
    (habs : getUserByUsername sam st = none)
    (hid : ∀ u ∈ st.users, u.id ≠ st.nextUserId) :
    ∃ u st1,
      provisionCont sam dn1 st = (some u, st1)
      ∧ u.username = sam
      ∧ provisionCont sam dn2 st1 = (none, st1)
      ∧ (st1.users.filter (fun w => w.username == sam)).length = 1 := by
  have hany : st.users.any (fun u => u.username == sam) = false :=
    any_eq_false_of_find?_eq_none habs
  have hpre : ∀ u ∈ st.users, ((fun u : User => u.id == st.nextUserId) u) = false := by
    intro u hu
    simpa using hid u hu
  refine ⟨⟨st.nextUserId, sam, none, some dn1, 0, st.now⟩,
    { st with
      users := st.users ++ [⟨st.nextUserId, sam, none, some dn1, 0, st.now⟩],
      nextUserId := st.nextUserId + 1 }, ?_, rfl, ?_, ?_⟩
  · simp only [provisionCont, createUser, hany, Bool.false_eq_true, if_false,
      exportsLookup, exportsObj, List.find?_nil, Option.map_none, jsTruthyOpt]
    simp only [getUserById, find?_append_of_none hpre, List.find?_cons,
      beq_self_eq_true, if_pos trivial, Option.map_some]
    rfl
  · simp [provisionCont, createUser]
  · rw [List.filter_append, filter_eq_nil_of_find?_eq_none habs]
    simp

/-- Witness for C2 (amended): concrete race on a fresh name over an empty
database. -/
theorem claim_C2_witness :
    ∃ u st1,
      provisionCont "jdoe" "Jane Doe" ⟨[], [], [], 1, 1, 1, 9⟩ = (some u, st1)
      ∧ u.username = "jdoe"
      ∧ provisionCont "jdoe" "J. Doe" st1 = (none, st1)
      ∧ (st1.users.filter (fun w => w.username == "jdoe")).length = 1 :=
  claim_C2_provisioning_race "jdoe" "Jane Doe" "J. Doe" ⟨[], [], [], 1, 1, 1, 9⟩
    rfl (by simp)

/-- C3: a bearer token that fails verification (expired or malformed —
`jwt.verify` throws, i.e. `verify` rejects) never makes identity resolution
throw to its caller: the failure is absorbed and resolution is exactly the
header-based SSO resolution; if additionally no SSO header strategy applies,
it yields no identity with the store untouched. -/
theorem claim_C3_invalid_token_falls_through
    (verify : String → Except String Nat) (adCfg : Bool)
    (adLookup : String → Except String (Option AdUser)) (req : Request)
    (st : DbState) (a e : String)
    (ha : req.authorization = some a)
    (hb : jsStartsWith a "Bearer " = true)
    (hv : verify (jsSlice a 7) = Except.error e) :
    resolveUserFromRequest verify adCfg adLookup req st
      = Except.ok (resolveSsoHeaders adCfg adLookup req st)
    ∧ (firstTruthyHeader req = none →
        resolveUserFromRequest verify adCfg adLookup req st = Except.ok (none, st)) := by
  have ht : tokenStep verify req st = Except.error e := by
    simp [tokenStep, ha, hb, hv]
  constructor
  · simp [resolveUserFromRequest, ht]
  · intro hn
    simp [resolveUserFromRequest, ht, resolveSsoHeaders, hn]

/-- Witness for C3: a concrete request carrying an expired bearer token and
no SSO headers resolves to no identity without throwing. -/
theorem claim_C3_witness :
    resolveUserFromRequest (fun _ => Except.error "jwt expired") false
        (fun _ => Except.ok none) ⟨some "Bearer abc.def", []⟩ ⟨[], [], [], 1, 1, 1, 9⟩
      = Except.ok (none, ⟨[], [], [], 1, 1, 1, 9⟩) :=
  (claim_C3_invalid_token_falls_through (fun _ => Except.error "jwt expired") false
    (fun _ => Except.ok none) ⟨some "Bearer abc.def", []⟩ ⟨[], [], [], 1, 1, 1, 9⟩
    "Bearer abc.def" "jwt expired" rfl (by decide) rfl).2 rfl

/-- C1: SSO provisioning for a fresh candidate account name.  Resolution
succeeds with a newly inserted user whatever the directory lookup did
(`adLookup` is arbitrary, including rejection), the row has no password
credential, and `display_name` follows the directory-or-raw-name chain — but
the inserted `external` column is `0`, not `1` as the spec claims: the
server passes `external: 1`, yet `db.createUser` reads it through
`arguments[0]` inside an arrow function, which is the empty CommonJS
`exports` object, so the truthiness test fails and `0` is inserted. -/
theorem claim_C1_sso_provisioning
    (verify : String → Except String Nat) (adCfg : Bool)
    (adLookup : String → Except String (Option AdUser)) (req : Request)
    (st : DbState) (v : String)
    (hauth : req.authorization = none)
    (hv : firstTruthyHeader req = some v)
    (habs : getUserByUsername (normalizeHeader v) st = none)
    (hid : ∀ u ∈ st.users, u.id ≠ st.nextUserId) :
    ∃ u dn st',
      resolveUserFromRequest verify adCfg adLookup req st = Except.ok (some u, st')
      ∧ u = ⟨st.nextUserId, normalizeHeader v, none, some dn, 0, st.now⟩
      ∧ st'.users = st.users
          ++ [⟨st.nextUserId, normalizeHeader v, none, some dn, 0, st.now⟩]
      ∧ (adCfg = false → dn = normalizeHeader v)
      ∧ (∀ err, adLookup (normalizeHeader v) = Except.error err →
          dn = normalizeHeader v)
      ∧ (adLookup (normalizeHeader v) = Except.ok none → dn = normalizeHeader v)
      ∧ (∀ info d, adCfg = true → adLookup (normalizeHeader v) = Except.ok (some info) →
          info.displayName = some d → (d == "") = false → dn = d) := by
  have hany : st.users.any (fun u => u.username == normalizeHeader v) = false :=
    any_eq_false_of_find?_eq_none habs
  have hpre : ∀ u ∈ st.users, ((fun u : User => u.id == st.nextUserId) u) = false := by
    intro u hu
    simpa using hid u hu
  set DN : String := jsOrStr
      (((if adCfg then
          (match adLookup (normalizeHeader v) with
            | Except.ok i => i
            | Except.error _ => none)
        else none) : Option AdUser).bind (fun i => i.displayName))
      (normalizeHeader v) with hDN
  refine ⟨⟨st.nextUserId, normalizeHeader v, none, some DN, 0, st.now⟩, DN,
    { st with
      users := st.users
        ++ [⟨st.nextUserId, normalizeHeader v, none, some DN, 0, st.now⟩],
      nextUserId := st.nextUserId + 1 }, ?_, rfl, rfl, ?_, ?_, ?_, ?_⟩
  · simp only [resolveUserFromRequest, tokenStep, hauth, resolveSsoHeaders, hv, habs]
    simp only [provisionCont, createUser, hany, Bool.false_eq_true, if_false,
      exportsLookup, exportsObj, List.find?_nil, Option.map_none, jsTruthyOpt]
    simp only [getUserById, find?_append_of_none hpre, List.find?_cons,
      beq_self_eq_true, if_pos trivial, Option.map_some]
    rw [hDN]
    rfl
  · intro hcfg
    rw [hDN, hcfg]
    simp [jsOrStr]
  · intro err herr
    rw [hDN]
    cases adCfg with
    | false => simp [jsOrStr]
    | true => simp [herr, jsOrStr]
  · intro hok
    rw [hDN]
    cases adCfg with
    | false => simp [jsOrStr]
    | true => simp [hok, jsOrStr]
  · intro info d hcfg hok hdisp hne
    rw [hDN, hcfg]
    simp [hok, hdisp, jsOrStr, hne]

/-- Witness for C1: a concrete fresh SSO request with header
`x-remote-user: CORP\jdoe`, a failing token verifier and a succeeding
directory lookup; the provisioned row nevertheless has `external = 0`. -/
theorem claim_C1_witness :
    ∃ u dn st',
      resolveUserFromRequest (fun _ => Except.error "bad token") true
          (fun _ => Except.ok (some ⟨some "jdoe", some "Jane Doe", some "jdoe@corp.example"⟩))
          ⟨none, [("x-remote-user", "CORP\\jdoe")]⟩ ⟨[], [], [], 1, 1, 1, 9⟩
        = Except.ok (some u, st')
      ∧ u = ⟨1, "jdoe", none, some dn, 0, 9⟩ :=
  match claim_C1_sso_provisioning (fun _ => Except.error "bad token") true
      (fun _ => Except.ok (some ⟨some "jdoe", some "Jane Doe", some "jdoe@corp.example"⟩))
      ⟨none, [("x-remote-user", "CORP\\jdoe")]⟩ ⟨[], [], [], 1, 1, 1, 9⟩
      "CORP\\jdoe" rfl rfl rfl (by simp) with
  | ⟨u, dn, st', h1, h2, _⟩ => ⟨u, dn, st', h1, h2⟩

/-- C10: `db.createTicket` takes only `title`, `description`, `requester`
from its argument; the seven remaining columns are read off `arguments[0]`
(the empty CommonJS `exports` object, since the arrow function has no own
`arguments`) and are therefore always NULL, whatever the caller supplied —
in particular a `POST /api/tickets` request carrying computer/location
headers produces a ticket whose `computer` and `location` are null. -/
theorem claim_C10_extras_always_null :
    (∀ (a : CreateTicketArg) (st : DbState),
      (createTicket a st).2.tickets = st.tickets
        ++ [⟨st.nextTicketId, a.title, a.description, a.requester,
             none, none, none, none, none, none, none, "open", st.now, none⟩])
    ∧ (∀ (verify : String → Except String Nat) (adCfg : Bool)
        (adLookup : String → Except String (Option AdUser)) (req : Request)
        (body : TicketBody) (st : DbState) (res : Option User) (st' : DbState)
        (t : String),
        resolveUserFromRequest verify adCfg adLookup req st = Except.ok (res, st') →
        body.title = some t → (t == "") = false →
        (∀ tk ∈ st'.tickets, tk.id ≠ st'.nextTicketId) →
        ∃ tk, (postTickets verify adCfg adLookup req body st).1.2 = some tk
          ∧ tk.computer = none ∧ tk.location = none) := by
  constructor
  · intro a st
    rfl
  · intro verify adCfg adLookup req body st res st' t hre htitle htne hfresh
    have hpre : ∀ tk ∈ st'.tickets, ((fun tk : Ticket => tk.id == st'.nextTicketId) tk) = false := by
      intro tk htk
      simpa using hfresh tk htk
    refine ⟨⟨st'.nextTicketId, t, some (jsOrStr body.description ""),
        some (jsOrStr (res.map (fun u => u.username)) (jsOrStr body.requester "Anonymous")),
        none, none, none, none, none, none, none, "open", st'.now, none⟩, ?_, rfl, rfl⟩
    simp only [postTickets, htitle, htne, Bool.false_eq_true, if_false, hre]
    simp only [createTicket, getTicket, exportsLookup, exportsObj, List.find?_nil,
      Option.map_none, jsOrNull]
    rw [find?_append_of_none hpre]
    simp [List.find?_cons]

/-- Witness for C10: a concrete `POST /api/tickets` carrying
`x-computer-name` and `x-location` headers still yields a ticket whose
`computer` and `location` are null. -/
theorem claim_C10_witness :
    ∃ tk, (postTickets (fun _ => Except.error "bad token") false
        (fun _ => Except.ok none)
        ⟨none, [("x-computer-name", "PC-0042"), ("x-location", "HQ-3")]⟩
        ⟨some "Printer down", none, none⟩ ⟨[], [], [], 1, 1, 1, 9⟩).1.2 = some tk
      ∧ tk.computer = none ∧ tk.location = none :=
  claim_C10_extras_always_null.2 (fun _ => Except.error "bad token") false
    (fun _ => Except.ok none)
    ⟨none, [("x-computer-name", "PC-0042"), ("x-location", "HQ-3")]⟩
    ⟨some "Printer down", none, none⟩ ⟨[], [], [], 1, 1, 1, 9⟩ none
    ⟨[], [], [], 1, 1, 1, 9⟩ "Printer down" rfl rfl rfl (by simp)

/-- C5: `POST /api/tickets` with a truthy title creates a ticket with status
"open" and exactly one "created" event for it; with no resolved identity and
no client requester the requester is "Anonymous"; a resolved identity's
account name overrides any client-supplied requester; a request with a
missing or empty title is rejected with 400 and leaves the database
untouched. -/
theorem claim_C5_ticket_creation
    (verify : String → Except String Nat) (adCfg : Bool)
    (adLookup : String → Except String (Option AdUser)) (req : Request)
    (body : TicketBody) (st : DbState) (res : Option User) (st' : DbState)
    (hre : resolveUserFromRequest verify adCfg adLookup req st = Except.ok (res, st')) :
    (body.title = none →
      postTickets verify adCfg adLookup req body st = ((400, none), st))
    ∧ (body.title = some "" →
      postTickets verify adCfg adLookup req body st = ((400, none), st))
    ∧ (∀ t, body.title = some t → (t == "") = false →
        (∀ e ∈ st'.events, e.ticket_id ≠ st'.nextTicketId) →
        (∀ tk ∈ st'.tickets, tk.id ≠ st'.nextTicketId) →
        ∃ tk,
          (postTickets verify adCfg adLookup req body st).1.1 = 201
          ∧ (postTickets verify adCfg adLookup req body st).1.2 = some tk
          ∧ tk.title = t
          ∧ tk.status = "open"
          ∧ tk.requester = some (jsOrStr (res.map (fun u => u.username))
              (jsOrStr body.requester "Anonymous"))
          ∧ (res = none → body.requester = none → tk.requester = some "Anonymous")
          ∧ (∀ u, res = some u → (u.username == "") = false →
              tk.requester = some u.username)
          ∧ ((postTickets verify adCfg adLookup req body st).2.events.filter
              (fun e => e.ticket_id == tk.id && e.type == "created")).length = 1) := by
  refine ⟨?_, ?_, ?_⟩
  · intro h
    simp [postTickets, h]
  · intro h
    simp [postTickets, h]
  · intro t htitle htne hev htk
    have hpre : ∀ tk ∈ st'.tickets,
        ((fun tk : Ticket => tk.id == st'.nextTicketId) tk) = false := by
      intro tk h
      simpa using htk tk h
    refine ⟨⟨st'.nextTicketId, t, some (jsOrStr body.description ""),
        some (jsOrStr (res.map (fun u => u.username)) (jsOrStr body.requester "Anonymous")),
        none, none, none, none, none, none, none, "open", st'.now, none⟩,
      ?_, ?_, rfl, rfl, rfl, ?_, ?_, ?_⟩
    · simp only [postTickets, htitle, htne, Bool.false_eq_true, if_false, hre]
    · simp only [postTickets, htitle, htne, Bool.false_eq_true, if_false, hre]
      simp only [createTicket, getTicket, exportsLookup, exportsObj, List.find?_nil,
        Option.map_none, jsOrNull]
      rw [find?_append_of_none hpre]
      simp [List.find?_cons]
    · intro h1 h2
      simp [h1, h2, jsOrStr]
    · intro u h1 hne
      simp [h1, jsOrStr, hne]
    · simp only [postTickets, htitle, htne, Bool.false_eq_true, if_false, hre,
        createTicket, createTicketEvent]
      rw [List.filter_append]
      have h0 : st'.events.filter
          (fun e => e.ticket_id == st'.nextTicketId && e.type == "created") = [] := by
        rw [List.filter_eq_nil_iff]
        intro e he
        have hne' : (e.ticket_id == st'.nextTicketId) = false := by
          simpa using hev e he
        simp [hne']
      rw [h0]
      simp

/-- Witness for C5: a concrete `{title: "Printer down"}` request with no
resolvable identity yields status 201, requester "Anonymous", status "open",
and exactly one "created" event. -/
theorem claim_C5_witness :
    ∃ tk,
      (postTickets (fun _ => Except.error "bad token") false (fun _ => Except.ok none)
          ⟨none, []⟩ ⟨some "Printer down", none, none⟩ ⟨[], [], [], 1, 1, 1, 9⟩).1.1 = 201
      ∧ (postTickets (fun _ => Except.error "bad token") false (fun _ => Except.ok none)
          ⟨none, []⟩ ⟨some "Printer down", none, none⟩ ⟨[], [], [], 1, 1, 1, 9⟩).1.2 = some tk
      ∧ tk.requester = some "Anonymous"
      ∧ tk.status = "open"
      ∧ ((postTickets (fun _ => Except.error "bad token") false (fun _ => Except.ok none)
          ⟨none, []⟩ ⟨some "Printer down", none, none⟩ ⟨[], [], [], 1, 1, 1, 9⟩).2.events.filter
            (fun e => e.ticket_id == tk.id && e.type == "created")).length = 1 :=
  match (claim_C5_ticket_creation (fun _ => Except.error "bad token") false
      (fun _ => Except.ok none) ⟨none, []⟩ ⟨some "Printer down", none, none⟩
      ⟨[], [], [], 1, 1, 1, 9⟩ none ⟨[], [], [], 1, 1, 1, 9⟩ rfl).2.2
      "Printer down" rfl rfl (by simp) (by simp) with
  | ⟨tk, g1, g2, _, g4, _, g6, _, g8⟩ => ⟨tk, g1, g2, g6 rfl rfl, g4, g8⟩

/-- `updateTicket` touches only the `tickets` table. -/
theorem updateTicket_users (id : Nat) (fields : List (String × String)) (st : DbState) :
    (updateTicket id fields st).users = st.users := by
  simp only [updateTicket]
  split
  · rfl
  · rfl

/-- `updateTicket` appends no events. -/
theorem updateTicket_events (id : Nat) (fields : List (String × String)) (st : DbState) :
    (updateTicket id fields st).events = st.events := by
  simp only [updateTicket]
  split
  · rfl
  · rfl

/-- Looking a whitelisted key up in the payload restricted to the whitelist
is the same as looking it up in the full payload. -/
theorem lookupField_filter_whitelist (fields : List (String × String)) (k : String)
    (hk : k ∈ ticketWhitelist) :
    lookupField (fields.filter (fun kv => ticketWhitelist.contains kv.1)) k
      = lookupField fields k := by
  unfold lookupField
  rw [find?_filter_of_imp]
  intro x hx
  have hx1 : x.1 = k := by simpa using hx
  rw [hx1]
  exact List.elem_iff.mpr hk

/-- C6: a ticket update changes only whitelisted fields — the payload
restricted to the whitelist produces the same state, so every other
submitted field is silently ignored; the `users` and `events` tables and all
other tickets are untouched; on the updated row the non-whitelisted columns
(`id`, `computer`, `location`, `created_at`) are unchanged and `updated_at`
is set to the mutation time whenever some whitelisted field was submitted;
an empty payload is a no-op that does not error. -/
theorem claim_C6_update_whitelist (id : Nat) (fields : List (String × String))
    (st : DbState) :
    updateTicket id fields st
      = updateTicket id (fields.filter (fun kv => ticketWhitelist.contains kv.1)) st
    ∧ updateTicket id ([] : List (String × String)) st = st
    ∧ (updateTicket id fields st).users = st.users
    ∧ (updateTicket id fields st).events = st.events
    ∧ (∀ tk ∈ st.tickets, tk.id ≠ id → tk ∈ (updateTicket id fields st).tickets)
    ∧ (∀ tk, getTicket id st = some tk →
        ∃ tk', getTicket id (updateTicket id fields st) = some tk'
          ∧ tk'.id = tk.id ∧ tk'.computer = tk.computer ∧ tk'.location = tk.location
          ∧ tk'.created_at = tk.created_at
          ∧ ((∃ k ∈ ticketWhitelist, (lookupField fields k).isSome = true) →
              tk'.updated_at = some st.now)) := by
  refine ⟨?_, rfl, updateTicket_users id fields st, updateTicket_events id fields st,
    ?_, ?_⟩
  · have hup : ticketWhitelist.filterMap (fun k =>
        (lookupField (fields.filter (fun kv => ticketWhitelist.contains kv.1)) k).map
          (fun v => (k, v)))
        = ticketWhitelist.filterMap (fun k => (lookupField fields k).map (fun v => (k, v))) := by
      apply List.filterMap_congr
      intro k hk
      rw [lookupField_filter_whitelist fields k hk]
    simp only [updateTicket]
    rw [hup]
  · intro tk htk hne
    simp only [updateTicket]
    split
    · exact htk
    · have hb : (tk.id == id) = false := by simpa using hne
      have : (fun t : Ticket =>
          if t.id == id then
            { (ticketWhitelist.filterMap (fun k =>
                (lookupField fields k).map (fun v => (k, v)))).foldl setField t with
              updated_at := some st.now }
          else t) tk = tk := by
        simp [hb]
      exact this ▸ List.mem_map_of_mem _ htk
  · intro tk htk
    have hptk : (tk.id == id) = true := by
      have := List.find?_some (p := fun t : Ticket => t.id == id) htk
      exact this
    simp only [updateTicket]
    by_cases hU : (ticketWhitelist.filterMap (fun k =>
        (lookupField fields k).map (fun v => (k, v)))).isEmpty = true
    · rw [if_pos hU]
      refine ⟨tk, htk, rfl, rfl, rfl, rfl, ?_⟩
      rintro ⟨k, hk, hsome⟩
      exfalso
      obtain ⟨v, hv⟩ := Option.isSome_iff_exists.mp hsome
      have hmem : (k, v) ∈ ticketWhitelist.filterMap (fun k =>
          (lookupField fields k).map (fun v => (k, v))) :=
        List.mem_filterMap.mpr ⟨k, hk, by rw [hv]; rfl⟩
      rw [List.isEmpty_iff.mp hU] at hmem
      cases hmem
    · rw [if_neg hU]
      have hcomp : (fun t : Ticket => t.id == id) ∘ (fun t : Ticket =>
          if t.id == id then
            { (ticketWhitelist.filterMap (fun k =>
                (lookupField fields k).map (fun v => (k, v)))).foldl setField t with
              updated_at := some st.now }
          else t) = (fun t : Ticket => t.id == id) := by
        funext t
        by_cases h : (t.id == id) = true
        · simp only [Function.comp_apply, h, if_true]
          simp [foldl_setField_id, h]
        · simp only [Function.comp_apply]
          simp [h]
      refine ⟨{ (ticketWhitelist.filterMap (fun k =>
          (lookupField fields k).map (fun v => (k, v)))).foldl setField tk with
        updated_at := some st.now }, ?_, ?_, ?_, ?_, ?_, fun _ => rfl⟩
      · simp only [getTicket]
        rw [List.find?_map, hcomp]
        unfold getTicket at htk
        rw [htk, Option.map_some']
        rw [if_pos hptk]
      · exact foldl_setField_id _ _
      · exact foldl_setField_computer _ _
      · exact foldl_setField_location _ _
      · exact foldl_setField_created_at _ _

/-- Witness for C6: updating status (plus an unrecognized `internal_flag`
field) on a concrete ticket keeps `id`, `computer`, `location`, `created_at`
and stamps `updated_at` with the mutation time. -/
theorem claim_C6_witness :
    ∃ tk', getTicket 1 (updateTicket 1 [("status", "closed"), ("internal_flag", "true")]
        ⟨[], [⟨1, "Printer down", some "d", some "Anonymous", some "PC-1", some "HQ",
          none, none, none, none, none, "open", 5, none⟩], [], 1, 2, 1, 7⟩) = some tk'
      ∧ tk'.id = 1
      ∧ tk'.computer = some "PC-1"
      ∧ tk'.location = some "HQ"
      ∧ tk'.created_at = 5
      ∧ tk'.updated_at = some 7 :=
  match (claim_C6_update_whitelist 1 [("status", "closed"), ("internal_flag", "true")]
      ⟨[], [⟨1, "Printer down", some "d", some "Anonymous", some "PC-1", some "HQ",
        none, none, none, none, none, "open", 5, none⟩], [], 1, 2, 1, 7⟩).2.2.2.2.2
      ⟨1, "Printer down", some "d", some "Anonymous", some "PC-1", some "HQ",
        none, none, none, none, none, "open", 5, none⟩ rfl with
  | ⟨tk', g1, g2, g3, g4, g5, g6⟩ =>
    ⟨tk', g1, g2, g3, g4, g5, g6 ⟨"status", by simp [ticketWhitelist], rfl⟩⟩
